import Mathlib

/-!
Verification of the client-side state model, derived-view engine, command
dispatcher, ingestion pipeline and persistence layer of the image-organizer
application.  The definitions below are shallow embeddings of the TypeScript
source: the two App variants (the connected one persisting under
`visionary_hub_state_v1` and the offline one persisting under
`visionary_hub_state_offline_v1`), the Sidebar deletion callback, the voice
dispatch, and the local analysis mock.  JavaScript strings are modelled as
Lean `String`; case folding mirrors `toLowerCase` on the ASCII range (the
only range the embedded patterns and inputs exercise); the JS number fields
`x`, `y` are modelled as `Int`.
-/

/-- `OCRText` from types.ts: one recognized or manually added text region. -/
structure OCRText where
  id : String
  text : String
  x : Int
  y : Int
deriving Repr, DecidableEq

/-- `ImageItem` from types.ts.  `folderId?: string` is modelled as
`Option String` (`none` = the field is absent). -/
structure ImageItem where
  id : String
  url : String
  base64 : String
  name : String
  category : String
  description : String
  ocrTexts : List OCRText
  folderId : Option String
deriving Repr, DecidableEq

/-- `Folder` from types.ts. -/
structure Folder where
  id : String
  name : String
deriving Repr, DecidableEq

/-- `AppState` from types.ts.  `currentFolderId : string | null` is modelled
as `Option String` (`none` = null). -/
structure AppState where
  images : List ImageItem
  folders : List Folder
  currentFolderId : Option String
  searchQuery : String
deriving Repr, DecidableEq

/-! ### String primitives mirroring the JavaScript string methods used -/

/-- `s.toLowerCase()` (ASCII case folding, the range the program exercises). -/
def lowerStr (s : String) : String :=
  String.mk (s.data.map Char.toLower)

/-- Does `s` start with `pat`?  Character-by-character comparison normalized
through `f` (used with `id` for `startsWith` and with `Char.toLower` for
case-insensitive matching). -/
def charsStartBy (f : Char → Char) : List Char → List Char → Bool
  | _, [] => true
  | [], _ :: _ => false
  | a :: as, b :: bs => (f a == f b) && charsStartBy f as bs

/-- `s.includes(pat)` on character lists (case-sensitive, like JS). -/
def charsContains : List Char → List Char → Bool
  | [], pat => pat.isEmpty
  | a :: as, pat => charsStartBy id (a :: as) pat || charsContains as pat

/-- `s.includes(pat)` on `String`. -/
def containsStr (s pat : String) : Bool :=
  charsContains s.data pat.data

/-- `s.startsWith(pat)` on `String`. -/
def startsStr (s pat : String) : Bool :=
  charsStartBy id s.data pat.data

/-- Worker for `String.prototype.replace(/pat/g, "")`: removes every
non-overlapping occurrence of `pat`, scanning left to right, comparing
characters through the normalizer `f`.  The fuel argument is instantiated
with the length of the subject, which bounds the recursion (each step
consumes at least one character of the subject). -/
def removeGo (f : Char → Char) (pat : List Char) : Nat → List Char → List Char
  | _, [] => []
  | 0, s => s
  | fuel + 1, a :: as =>
    if (!pat.isEmpty) && charsStartBy f (a :: as) pat then
      removeGo f pat fuel (List.drop (pat.length - 1) as)
    else
      a :: removeGo f pat fuel as

/-- `s.replace(/pat/g, "")` (case-sensitive global removal). -/
def removeAllStr (s pat : String) : String :=
  String.mk (removeGo id pat.data s.data.length s.data)

/-- `s.replace(/pat/gi, "")` (case-insensitive global removal). -/
def removeAllStrCI (s pat : String) : String :=
  String.mk (removeGo Char.toLower pat.data s.data.length s.data)

/-- `s.trim()`. -/
def trimStr (s : String) : String :=
  String.mk (((s.data.dropWhile Char.isWhitespace).reverse.dropWhile Char.isWhitespace).reverse)

/-! ### Derived view engine -/

/-- Strict equality `img.folderId === state.currentFolderId` as typed in the
source: `string | undefined` against `string | null`.  Two strings compare
by content; any comparison involving the absent values is `false`
(`undefined === null` is `false` in JS). -/
def folderEq (fid : Option String) (cur : Option String) : Bool :=
  match fid, cur with
  | some a, some b => a == b
  | _, _ => false

/-- The truthiness test `state.currentFolderId && state.currentFolderId !== 'all'`
guarding the folder filter: the filter runs only for a non-null, non-empty id
different from `"all"`. -/
def folderFilterActive : Option String → Bool
  | none => false
  | some c => (!(c == "")) && (!(c == "all"))

/-- The truthiness test `if (state.searchQuery)`. -/
def searchActive (q : String) : Bool :=
  !(q == "")

/-- The four-source search predicate from `filteredImages` (both variants):
name OR category OR (truthy) description OR any OCR text, all matched
case-insensitively against the lowercased query `q`. -/
def imgMatches (q : String) (img : ImageItem) : Bool :=
  containsStr (lowerStr img.name) q ||
  containsStr (lowerStr img.category) q ||
  ((!(img.description == "")) && containsStr (lowerStr img.description) q) ||
  img.ocrTexts.any (fun ot => containsStr (lowerStr ot.text) q)

/-- `filteredImages` (the `useMemo` in both App variants): folder filter
first, then the search filter. -/
def filteredImages (s : AppState) : List ImageItem :=
  let base :=
    if folderFilterActive s.currentFolderId then
      s.images.filter (fun img => folderEq img.folderId s.currentFolderId)
    else
      s.images
  if searchActive s.searchQuery then
    base.filter (fun img => imgMatches (lowerStr s.searchQuery) img)
  else
    base

/-- The visible-image computation exactly as the specification words it
(for the refinement comparison of claim C4): images whose `folderId` equals
`currentFolderId` — with `"all"` as the only stated carve-out — intersected
with the search predicate when the query is non-empty. -/
def visibleImagesSpec (s : AppState) : List ImageItem :=
  (s.images.filter (fun img =>
      (s.currentFolderId == some "all") || folderEq img.folderId s.currentFolderId)).filter
    (fun img => (!searchActive s.searchQuery) || imgMatches (lowerStr s.searchQuery) img)

/-! ### State transitions shared by both variants -/

/-- The Sidebar `onDeleteFolder` callback (identical in both variants):
drop the folder with the given id and fall the current view back to
`"all"` when it pointed at the deleted folder.  Images are not touched. -/
def onDeleteFolder (id : String) (s : AppState) : AppState :=
  { s with
    folders := s.folders.filter (fun f => !(f.id == id)),
    currentFolderId := if s.currentFolderId == some id then some "all" else s.currentFolderId }

/-- Default state of the connected variant (fallback of the `useState`
initializer when nothing parseable is stored). -/
def defaultStateOnline : AppState :=
  { images := [], folders := [{ id := "all", name := "All Files" }],
    currentFolderId := some "all", searchQuery := "" }

/-- Default state of the offline variant. -/
def defaultStateOffline : AppState :=
  { images := [], folders := [{ id := "all", name := "全部文件" }],
    currentFolderId := some "all", searchQuery := "" }

/-! ### Offline variant UI state and its transitions -/

/-- The `language` state (`'en' | 'zh'`). -/
inductive Lang where
  | en : Lang
  | zh : Lang
deriving Repr, DecidableEq

/-- The `viewMode` state (`'desktop' | 'mobile'`). -/
inductive ViewMode where
  | desktop : ViewMode
  | mobile : ViewMode
deriving Repr, DecidableEq

/-- The React state of the offline App variant that the voice dispatch and
the compound folder-creation-and-move transition read and write. -/
structure OfflineUI where
  language : Lang
  viewMode : ViewMode
  state : AppState
  selectedImageId : Option String
  isAnalyzing : Bool
  multiSelectMode : Bool
  batchSelectedIds : List String
deriving Repr, DecidableEq

/-- `idsToMove.includes(img.id) ? { ...img, folderId: newFolderId } : img`
mapped over the images. -/
def moveImages (ids : List String) (newFolderId : String) (imgs : List ImageItem) : List ImageItem :=
  imgs.map (fun img => if ids.contains img.id then { img with folderId := some newFolderId } else img)

/-- The inline filter of `handleCreateFolderAndMove`'s third tier: images of
the current view folder whose NAME contains the search query
(case-insensitively) — `img.name.toLowerCase().includes(prev.searchQuery.toLowerCase())`.
Unlike `filteredImages` it consults neither category, description nor OCR
texts. -/
def nameVisibleImages (s : AppState) : List ImageItem :=
  s.images.filter (fun img =>
    ((s.currentFolderId == some "all") || folderEq img.folderId s.currentFolderId) &&
    ((!searchActive s.searchQuery) || containsStr (lowerStr img.name) (lowerStr s.searchQuery)))

/-- The `idsToMove` computation of `handleCreateFolderAndMove`: the
multi-select batch if non-empty, else the single open image, else the ids of
the name-filtered current view. -/
def moveTargets (u : OfflineUI) : List String :=
  if u.batchSelectedIds.length > 0 then
    u.batchSelectedIds
  else
    match u.selectedImageId with
    | some sid => [sid]
    | none => (nameVisibleImages u.state).map (fun img => img.id)

/-- `handleCreateFolderAndMove` of the offline variant: append the new
folder, reassign the chosen images into it, switch the view to it and reset
batch selection, multi-select mode and the open image. -/
def handleCreateFolderAndMove (newFolderId folderName : String) (u : OfflineUI) : OfflineUI :=
  let ids := moveTargets u
  { u with
    state :=
      { u.state with
        folders := u.state.folders ++ [{ id := newFolderId, name := folderName }],
        images := moveImages ids newFolderId u.state.images,
        currentFolderId := some newFolderId },
    batchSelectedIds := [],
    multiSelectMode := false,
    selectedImageId := none }

/-- The `recognition.onresult` handler of the offline variant: trim the
transcript, then first match wins among switch-view, switch-language,
create-folder (bilingual prefix strip; empty remaining name does nothing)
and, otherwise, plain search (which sets only `searchQuery`). -/
def onVoiceResult (newFolderId : String) (raw : String) (u : OfflineUI) : OfflineUI :=
  let transcript := trimStr raw
  if containsStr transcript "切换视图" || containsStr transcript "switch view" then
    { u with viewMode := if u.viewMode == ViewMode.desktop then ViewMode.mobile else ViewMode.desktop }
  else if containsStr transcript "切换语言" || containsStr transcript "switch language" then
    { u with language := if u.language == Lang.en then Lang.zh else Lang.en }
  else if startsStr transcript "创建文件夹" || startsStr (lowerStr transcript) "create folder" then
    let folderName := trimStr (removeAllStrCI (removeAllStr transcript "创建文件夹") "create folder")
    if folderName == "" then u else handleCreateFolderAndMove newFolderId folderName u
  else
    { u with state := { u.state with searchQuery := transcript } }

/-! ### Connected variant UI state, tool dispatch and upload -/

/-- The React state of the connected App variant relevant to the tool-call
dispatch and the ingestion pipeline. -/
structure OnlineUI where
  state : AppState
  selectedImageId : Option String
  isAnalyzing : Bool
deriving Repr, DecidableEq

/-- The argument mapping of a structured tool call (`args.name` for
`create_folder`, `args.query` for `search_items`). -/
structure ToolArgs where
  name : String
  query : String
deriving Repr, DecidableEq

/-- `handleVoiceCommand` of the connected variant.  `freshId` stands for the
generated `folder-${Date.now()}`.  `create_folder` is a no-op when a folder
with exactly that name exists; `search_items` sets the query, forces the
view to `"all"` and deselects the open image; any other name returns the
previous state. -/
def handleVoiceCommand (freshId : String) (cmd : String) (args : ToolArgs) (u : OnlineUI) : OnlineUI :=
  if cmd == "create_folder" then
    if u.state.folders.any (fun f => f.name == args.name) then u
    else { u with state := { u.state with folders := u.state.folders ++ [{ id := freshId, name := args.name }] } }
  else if cmd == "search_items" then
    { u with
      selectedImageId := none,
      state := { u.state with searchQuery := args.query, currentFolderId := some "all" } }
  else
    u

/-- The analysis collaborator's response shape
`{category, description, texts}`. -/
structure Analysis where
  category : String
  description : String
  texts : List OCRText
deriving Repr, DecidableEq

/-- `analyzeImage` of the local (offline) service: categorizes by filename
keywords and returns three stub OCR blocks whose ids derive from the
timestamp `ts` (`Date.now()`). -/
def analyzeImageMock (ts : Nat) (fileName : String) : Analysis :=
  let nm := lowerStr fileName
  let cd : String × String :=
    if containsStr nm "screen" || containsStr nm "截图" then
      ("屏幕截图", "检测到这是一张屏幕截图，已自动归类。")
    else if containsStr nm "receipt" || containsStr nm "发票" || containsStr nm "收据" then
      ("财务票据", "检测到票据特征，建议保存至财务文件夹。")
    else if containsStr nm "note" || containsStr nm "笔记" then
      ("手写笔记", "已识别文字内容并转换为可编辑模式。")
    else
      ("常规文档", "系统已自动扫描并识别该本地文件。")
  { category := cd.1,
    description := cd.2,
    texts := [
      { id := "ocr-1-" ++ toString ts, text := cd.1, x := 20, y := 20 },
      { id := "ocr-2-" ++ toString ts, text := "点击此处编辑文字", x := 50, y := 50 },
      { id := "ocr-3-" ++ toString ts, text := "本地模式运行中", x := 80, y := 80 }] }

/-- `handleFileUpload` of the offline variant as one unit of work over the
outcome `res` of the analysis collaborator: the flag is raised, and only the
success continuation (which synthesizes the item, assigns it the folder
active at upload time and prepends it) lowers it again — a rejection skips
the whole continuation, so the flag stays raised and no record is created.
`ts` stands for `Date.now()`. -/
def uploadPipelineOffline (ts : Nat) (b64 fileName : String) (res : Except Unit Analysis)
    (u : OfflineUI) : OfflineUI :=
  let u1 := { u with isAnalyzing := true }
  match res with
  | Except.error _ => u1
  | Except.ok a =>
    let newItem : ImageItem :=
      { id := "img-" ++ toString ts, url := b64, base64 := b64, name := fileName,
        category := a.category, description := a.description, ocrTexts := a.texts,
        folderId := if u.state.currentFolderId == some "all" then some "all"
                    else u.state.currentFolderId }
    { u1 with
      state := { u1.state with images := newItem :: u1.state.images },
      isAnalyzing := false }

/-- `handleFileUpload` of the connected variant: try/catch around the
analysis call with the flag cleared in `finally`; the synthesized item's
`folderId` is the literal `'all'`, and `url` is the object URL created for
the file. -/
def uploadPipelineOnline (ts : Nat) (objectUrl b64 fileName : String) (res : Except Unit Analysis)
    (u : OnlineUI) : OnlineUI :=
  let u1 := { u with isAnalyzing := true }
  match res with
  | Except.error _ => { u1 with isAnalyzing := false }
  | Except.ok a =>
    let newItem : ImageItem :=
      { id := "img-" ++ toString ts, url := objectUrl, base64 := b64, name := fileName,
        category := a.category, description := a.description, ocrTexts := a.texts,
        folderId := some "all" }
    { u1 with
      state := { u1.state with images := newItem :: u1.state.images },
      isAnalyzing := false }

/-! ### Persistence layer -/

/-- JSON values, the shape `JSON.parse` yields (numbers restricted to the
integers this state tree uses). -/
inductive Json where
  | null : Json
  | str : String → Json
  | num : Int → Json
  | arr : List Json → Json
  | obj : List (String × Json) → Json

/-- Option-valued map over a list, failing when any element fails. -/
def optMapList {α β : Type} (f : α → Option β) : List α → Option (List β)
  | [] => some []
  | a :: as =>
    match f a, optMapList f as with
    | some b, some bs => some (b :: bs)
    | _, _ => none

/-- `JSON.stringify` on one OCR text (keys in object-literal order). -/
def ocrToJson (t : OCRText) : Json :=
  Json.obj [("id", Json.str t.id), ("text", Json.str t.text),
            ("x", Json.num t.x), ("y", Json.num t.y)]

/-- Strict parse of one serialized OCR text. -/
def ocrFromJson : Json → Option OCRText
  | Json.obj [("id", Json.str i), ("text", Json.str t), ("x", Json.num x), ("y", Json.num y)] =>
    some { id := i, text := t, x := x, y := y }
  | _ => none

/-- `JSON.stringify` on one image item; an absent `folderId` (undefined) is
dropped from the object, as `stringify` does. -/
def imageToJson (img : ImageItem) : Json :=
  match img.folderId with
  | some f =>
    Json.obj [("id", Json.str img.id), ("url", Json.str img.url),
              ("base64", Json.str img.base64), ("name", Json.str img.name),
              ("category", Json.str img.category), ("description", Json.str img.description),
              ("ocrTexts", Json.arr (img.ocrTexts.map ocrToJson)), ("folderId", Json.str f)]
  | none =>
    Json.obj [("id", Json.str img.id), ("url", Json.str img.url),
              ("base64", Json.str img.base64), ("name", Json.str img.name),
              ("category", Json.str img.category), ("description", Json.str img.description),
              ("ocrTexts", Json.arr (img.ocrTexts.map ocrToJson))]

/-- Strict parse of one serialized image item. -/
def imageFromJson : Json → Option ImageItem
  | Json.obj [("id", Json.str i), ("url", Json.str u), ("base64", Json.str b),
              ("name", Json.str n), ("category", Json.str c), ("description", Json.str d),
              ("ocrTexts", Json.arr ts)] =>
    match optMapList ocrFromJson ts with
    | some ocr => some { id := i, url := u, base64 := b, name := n, category := c,
                         description := d, ocrTexts := ocr, folderId := none }
    | none => none
  | Json.obj [("id", Json.str i), ("url", Json.str u), ("base64", Json.str b),
              ("name", Json.str n), ("category", Json.str c), ("description", Json.str d),
              ("ocrTexts", Json.arr ts), ("folderId", Json.str f)] =>
    match optMapList ocrFromJson ts with
    | some ocr => some { id := i, url := u, base64 := b, name := n, category := c,
                         description := d, ocrTexts := ocr, folderId := some f }
    | none => none
  | _ => none

/-- `JSON.stringify` on one folder. -/
def folderToJson (f : Folder) : Json :=
  Json.obj [("id", Json.str f.id), ("name", Json.str f.name)]

/-- Strict parse of one serialized folder. -/
def folderFromJson : Json → Option Folder
  | Json.obj [("id", Json.str i), ("name", Json.str n)] => some { id := i, name := n }
  | _ => none

/-- Parse of the serialized `currentFolderId` (`null` or a string). -/
def curFromJson : Json → Option (Option String)
  | Json.null => some none
  | Json.str c => some (some c)
  | _ => none

/-- `JSON.stringify(state)`: the whole tree under the fixed storage key. -/
def stateToJson (s : AppState) : Json :=
  Json.obj [("images", Json.arr (s.images.map imageToJson)),
            ("folders", Json.arr (s.folders.map folderToJson)),
            ("currentFolderId", match s.currentFolderId with
                                | some c => Json.str c
                                | none => Json.null),
            ("searchQuery", Json.str s.searchQuery)]

/-- Strict parse of a serialized state tree (the inverse of `stateToJson`;
the source itself never validates — see `loadState`). -/
def stateFromJson : Json → Option AppState
  | Json.obj [("images", Json.arr is), ("folders", Json.arr fs),
              ("currentFolderId", cj), ("searchQuery", Json.str q)] =>
    match optMapList imageFromJson is, optMapList folderFromJson fs, curFromJson cj with
    | some imgs, some flds, some cur =>
      some { images := imgs, folders := flds, currentFolderId := cur, searchQuery := q }
    | _, _, _ => none
  | _ => none

/-- The `useState` initializer of the connected variant, at the JSON level.
`none` = no blob under the storage key; `some none` = a stored text
`JSON.parse` throws on (caught, logged, fall through to the default);
`some (some j)` = `JSON.parse` succeeded and the value `j` is returned as
the state verbatim — the source performs no shape validation (a plain
cast), so a well-formed-JSON blob of the wrong shape is adopted as-is. -/
def loadState (saved : Option (Option Json)) : Json :=
  match saved with
  | some (some j) => j
  | _ => stateToJson defaultStateOnline

/-! ### The UI-invokable transitions of the state tree -/

/-- Does the state contain the `"all"` pseudo-folder? -/
def hasAllFolder (s : AppState) : Bool :=
  s.folders.any (fun f => f.id == "all")

/-- One UI-invokable transition of the state tree, in either variant:
folder selection, the GUARDED folder deletion (the Sidebar renders a delete
control only for `folder.id !== 'all'`, so the deletion callback is only
ever invoked with an id different from `"all"`), typing or voicing a search,
the two structured tool calls, ingestion success, title/category edits, the
three OCR-overlay edits, batch delete, and folder-creation-and-move. -/
inductive Step : AppState → AppState → Prop where
  | selectFolder (id : String) (s : AppState) :
      Step s { s with currentFolderId := some id }
  | deleteFolder (id : String) (s : AppState) (h : id ≠ "all") :
      Step s (onDeleteFolder id s)
  | setSearch (q : String) (s : AppState) :
      Step s { s with searchQuery := q }
  | toolCreateFolder (fid n : String) (s : AppState) :
      Step s (if s.folders.any (fun f => f.name == n) then s
              else { s with folders := s.folders ++ [{ id := fid, name := n }] })
  | toolSearch (q : String) (s : AppState) :
      Step s { s with searchQuery := q, currentFolderId := some "all" }
  | addImage (item : ImageItem) (s : AppState) :
      Step s { s with images := item :: s.images }
  | editTitle (id ttl : String) (s : AppState) :
      Step s { s with images := s.images.map (fun img =>
        if img.id == id then { img with name := ttl } else img) }
  | editCategory (id c : String) (s : AppState) :
      Step s { s with images := s.images.map (fun img =>
        if img.id == id then { img with category := c } else img) }
  | ocrUpdate (imgId tid txt : String) (s : AppState) :
      Step s { s with images := s.images.map (fun img =>
        if img.id == imgId then
          { img with ocrTexts := img.ocrTexts.map (fun o =>
              if o.id == tid then { o with text := txt } else o) }
        else img) }
  | ocrRemove (imgId tid : String) (s : AppState) :
      Step s { s with images := s.images.map (fun img =>
        if img.id == imgId then
          { img with ocrTexts := img.ocrTexts.filter (fun o => !(o.id == tid)) }
        else img) }
  | ocrAdd (imgId : String) (o : OCRText) (s : AppState) :
      Step s { s with images := s.images.map (fun img =>
        if img.id == imgId then { img with ocrTexts := img.ocrTexts ++ [o] } else img) }
  | batchDelete (ids : List String) (s : AppState) :
      Step s { s with images := s.images.filter (fun img => !(ids.contains img.id)) }
  | createFolderAndMove (fid n : String) (ids : List String) (s : AppState) :
      Step s { s with folders := s.folders ++ [{ id := fid, name := n }],
                      images := moveImages ids fid s.images,
                      currentFolderId := some fid }

/-! ### Concrete fixtures -/

/-- An image filed under `"folder-1"`. -/
def exImageC1 : ImageItem :=
  { id := "img-1", url := "u", base64 := "b", name := "pic.png", category := "Docs",
    description := "", ocrTexts := [], folderId := some "folder-1" }

/-- A state whose current view is the user folder `"folder-1"` holding one image. -/
def exStateC1 : AppState :=
  { images := [exImageC1],
    folders := [{ id := "all", name := "All Files" }, { id := "folder-1", name := "Trips" }],
    currentFolderId := some "folder-1", searchQuery := "" }

/-- An image filed under `"x"`, in a state whose `currentFolderId` is null. -/
def exImageC4 : ImageItem :=
  { id := "i1", url := "u", base64 := "b", name := "n", category := "c",
    description := "d", ocrTexts := [], folderId := some "x" }

/-- A state with a null `currentFolderId` (legitimate per the data model,
where `currentFolderId` may be absent). -/
def exStateC4 : AppState :=
  { images := [exImageC4], folders := [{ id := "all", name := "All Files" }],
    currentFolderId := none, searchQuery := "" }

/-- C1 (counterexample): deleting folder `"folder-1"` leaves the image that
referenced it still carrying `folderId == "folder-1"` — the transition does
not reassign images to `"all"`, contradicting the claim that the resulting
state has no image with the deleted folder id. -/
theorem deleteFolder_leaves_dangling_image :
    (onDeleteFolder "folder-1" exStateC1).images.any
      (fun img => img.folderId == some "folder-1") = true := by decide

/-- C1 (amended): folder deletion with `f ≠ "all"` removes every folder with
id `f` and leaves `currentFolderId ≠ f` (falling back to `"all"` when it
pointed at `f`), but the images sequence is unchanged — images referencing
`f` keep that reference. -/
theorem onDeleteFolder_spec (s : AppState) (f : String) (h : f ≠ "all") :
    (onDeleteFolder f s).currentFolderId ≠ some f ∧
    (∀ g ∈ (onDeleteFolder f s).folders, g.id ≠ f) ∧
    (onDeleteFolder f s).images = s.images := by
  refine ⟨?_, ?_, rfl⟩
  · simp only [onDeleteFolder]
    split
    · intro hc
      exact h (Option.some.inj hc).symm
    · next hne =>
      intro hc
      simp [hc] at hne
  · intro g hg
    simp only [onDeleteFolder, List.mem_filter] at hg
    simpa using hg.2

/-- C1 (witness): the amended deletion contract evaluated on the concrete
state `exStateC1` with `f = "folder-1"`. -/
theorem onDeleteFolder_spec_witness :
    (onDeleteFolder "folder-1" exStateC1).currentFolderId ≠ some "folder-1" ∧
    (∀ g ∈ (onDeleteFolder "folder-1" exStateC1).folders, g.id ≠ "folder-1") ∧
    (onDeleteFolder "folder-1" exStateC1).images = exStateC1.images :=
  onDeleteFolder_spec exStateC1 "folder-1" (by decide)

/-- C4 (counterexample): with a null `currentFolderId` the source applies no
folder filter at all and returns the image filed under `"x"`, while the
claim's predicate — folder filter skipped only for `"all"` — returns
nothing: the two computations differ on this state. -/
theorem filteredImages_null_folder_divergence :
    filteredImages exStateC4 = [exImageC4] ∧ visibleImagesSpec exStateC4 = [] := by
  decide

/-- C4 (amended): `filteredImages` preserves the relative order of `images`
(it is a sublist), and an image is in the result exactly when it is in
`images`, passes the folder filter — which is skipped whenever
`currentFolderId` is `"all"`, null or the empty string, i.e. whenever
`folderFilterActive` is false — and, when the query is non-empty, matches
the case-insensitive four-source search predicate. -/
theorem filteredImages_characterization (s : AppState) :
    List.Sublist (filteredImages s) s.images ∧
    (∀ img : ImageItem, img ∈ filteredImages s ↔
      (img ∈ s.images ∧
       (folderFilterActive s.currentFolderId = false ∨
        folderEq img.folderId s.currentFolderId = true) ∧
       (searchActive s.searchQuery = false ∨
        imgMatches (lowerStr s.searchQuery) img = true))) := by
  constructor
  · by_cases h1 : folderFilterActive s.currentFolderId <;>
      by_cases h2 : searchActive s.searchQuery <;>
      simp only [filteredImages, h1, h2, if_true, if_false, Bool.false_eq_true] <;>
      first
        | exact (List.filter_sublist _).trans (List.filter_sublist _)
        | exact List.filter_sublist _
        | exact List.Sublist.refl _
  · intro img
    by_cases h1 : folderFilterActive s.currentFolderId
    all_goals by_cases h2 : searchActive s.searchQuery
    all_goals simp [filteredImages, h1, h2, List.mem_filter]
    all_goals tauto

/-- An image whose category (but not name) matches the query `"nature"`. -/
def exImageC2 : ImageItem :=
  { id := "img-b", url := "u", base64 := "b", name := "beach.png", category := "Nature",
    description := "", ocrTexts := [], folderId := some "all" }

/-- Offline UI: no batch, no open image, query `"nature"` — the third tier
of folder-creation-and-move applies. -/
def exUIC2 : OfflineUI :=
  { language := Lang.en, viewMode := ViewMode.desktop,
    state := { images := [exImageC2], folders := [{ id := "all", name := "全部文件" }],
               currentFolderId := some "all", searchQuery := "nature" },
    selectedImageId := none, isAnalyzing := false, multiSelectMode := false,
    batchSelectedIds := [] }

/-- C2 (counterexample): on `exUIC2` the image is visible (its category
matches the query), yet the third tier of folder-creation-and-move moves no
image into the new folder — contradicting the claim that, with no batch and
no open image, the currently visible set is moved. -/
theorem createFolderAndMove_misses_visible :
    filteredImages exUIC2.state = [exImageC2] ∧
    (handleCreateFolderAndMove "folder-9" "Trips" exUIC2).state.images.all
      (fun img => !(img.folderId == some "folder-9")) = true := by
  decide

/-- C2 (amended): folder-creation-and-move appends the new folder, makes it
current, clears batch selection, multi-select mode and the open image, and
reassigns exactly `moveTargets` — the batch when non-empty, else the single
open image, else the images of the current view folder whose NAME matches
the query (`nameVisibleImages`, a name-only filter rather than the full
visible set). -/
theorem handleCreateFolderAndMove_spec (u : OfflineUI) (fid fname : String) :
    (handleCreateFolderAndMove fid fname u).state.folders =
      u.state.folders ++ [{ id := fid, name := fname }] ∧
    (handleCreateFolderAndMove fid fname u).state.currentFolderId = some fid ∧
    (handleCreateFolderAndMove fid fname u).batchSelectedIds = [] ∧
    (handleCreateFolderAndMove fid fname u).multiSelectMode = false ∧
    (handleCreateFolderAndMove fid fname u).selectedImageId = none ∧
    (handleCreateFolderAndMove fid fname u).state.images =
      moveImages (moveTargets u) fid u.state.images ∧
    (u.batchSelectedIds ≠ [] → moveTargets u = u.batchSelectedIds) ∧
    (∀ sid : String, u.batchSelectedIds = [] → u.selectedImageId = some sid →
      moveTargets u = [sid]) ∧
    (u.batchSelectedIds = [] → u.selectedImageId = none →
      moveTargets u = (nameVisibleImages u.state).map (fun img => img.id)) := by
  refine ⟨rfl, rfl, rfl, rfl, rfl, rfl, ?_, ?_, ?_⟩
  · intro hb
    have hp : 0 < u.batchSelectedIds.length := List.length_pos.mpr hb
    simp [moveTargets, hp]
  · intro sid h0 hsel
    simp [moveTargets, h0, hsel]
  · intro h0 hsel
    simp [moveTargets, h0, hsel]

/-- An image whose category (but not name) matches the query `"finance"`. -/
def exImageC3 : ImageItem :=
  { id := "img-1", url := "u", base64 := "b", name := "photo.png", category := "Finance",
    description := "", ocrTexts := [], folderId := some "all" }

/-- Offline UI for the C3 failing input: query `"finance"`, no batch, no
open image. -/
def exUIC3 : OfflineUI :=
  { language := Lang.zh, viewMode := ViewMode.desktop,
    state := { images := [exImageC3], folders := [{ id := "all", name := "全部文件" }],
               currentFolderId := some "all", searchQuery := "finance" },
    selectedImageId := none, isAnalyzing := false, multiSelectMode := false,
    batchSelectedIds := [] }

/-- C3: evaluation at the failing input.  The derived view shows exactly
`img-1` (category match), but the third tier's inline name-only filter
selects nothing, so folder-creation-and-move leaves the images untouched —
the moved set is not the visible set, contradicting the claim and the
source's own comment that all images displayed in the current view are
moved. -/
theorem moveTargets_name_only_divergence :
    (filteredImages exUIC3.state).map (fun img => img.id) = ["img-1"] ∧
    moveTargets exUIC3 = [] ∧
    (handleCreateFolderAndMove "folder-9" "Trips" exUIC3).state.images = [exImageC3] := by
  decide

/-- Offline UI with an image currently open (`selectedImageId` set). -/
def exUIC9 : OfflineUI :=
  { language := Lang.en, viewMode := ViewMode.desktop,
    state := defaultStateOffline,
    selectedImageId := some "img-1", isAnalyzing := false, multiSelectMode := false,
    batchSelectedIds := [] }

/-- C9 (counterexample): the utterance `"sunset"` matches no command phrase;
the dispatcher sets the search query but leaves the open image selected —
it does not clear the selection as the claim states. -/
theorem search_keeps_selection :
    (onVoiceResult "folder-9" "sunset" exUIC9).selectedImageId = some "img-1" ∧
    (onVoiceResult "folder-9" "sunset" exUIC9).state.searchQuery = "sunset" := by
  decide

/-- C9 (amended): an utterance matching none of the command phrases sets
`searchQuery` to the (trimmed) utterance verbatim and changes nothing else —
in particular the open image selection is left as it was, not cleared. -/
theorem onVoiceResult_search_spec (u : OfflineUI) (fid t : String)
    (h1 : containsStr (trimStr t) "切换视图" = false)
    (h2 : containsStr (trimStr t) "switch view" = false)
    (h3 : containsStr (trimStr t) "切换语言" = false)
    (h4 : containsStr (trimStr t) "switch language" = false)
    (h5 : startsStr (trimStr t) "创建文件夹" = false)
    (h6 : startsStr (lowerStr (trimStr t)) "create folder" = false) :
    onVoiceResult fid t u = { u with state := { u.state with searchQuery := trimStr t } } := by
  simp [onVoiceResult, h1, h2, h3, h4, h5, h6]

/-- C9 (witness): the amended search dispatch evaluated on the concrete
utterance `"sunset"` with an image open. -/
theorem onVoiceResult_search_spec_witness :
    onVoiceResult "folder-9" "sunset" exUIC9 =
      { exUIC9 with state := { exUIC9.state with searchQuery := trimStr "sunset" } } :=
  onVoiceResult_search_spec exUIC9 "folder-9" "sunset"
    (by decide) (by decide) (by decide) (by decide) (by decide) (by decide)

/-- C10 (counterexample): the raw deletion transition applied with the id
`"all"` does remove the `"all"` pseudo-folder from the folders sequence,
contradicting the claim that no transition — including folder deletion with
id `"all"` — ever removes it. -/
theorem deleteFolder_all_removes_all :
    hasAllFolder (onDeleteFolder "all" defaultStateOnline) = false := by
  decide

/-- Every UI-invokable transition preserves the presence of the `"all"`
folder (deletion is only invokable with an id different from `"all"`:
the Sidebar renders no delete control on the `"all"` row). -/
theorem hasAll_step {s s2 : AppState} (h : Step s s2) (ha : hasAllFolder s = true) :
    hasAllFolder s2 = true := by
  cases h with
  | selectFolder id s => exact ha
  | deleteFolder id s hid =>
    simp only [hasAllFolder, onDeleteFolder, List.any_eq_true] at ha ⊢
    obtain ⟨f, hf, hfid⟩ := ha
    refine ⟨f, List.mem_filter.mpr ⟨hf, ?_⟩, hfid⟩
    simp only [beq_iff_eq] at hfid
    have : f.id ≠ id := by
      rw [hfid]
      exact fun hh => hid hh.symm
    simp [this]
  | setSearch q s => exact ha
  | toolCreateFolder fid n s =>
    by_cases hc : s.folders.any (fun f => f.name == n)
    · simpa [hc] using ha
    · simp only [hc]
      simp only [hasAllFolder, List.any_append] at ha ⊢
      simp [ha]
  | toolSearch q s => exact ha
  | addImage item s => exact ha
  | editTitle id ttl s => exact ha
  | editCategory id c s => exact ha
  | ocrUpdate imgId tid txt s => exact ha
  | ocrRemove imgId tid s => exact ha
  | ocrAdd imgId o s => exact ha
  | batchDelete ids s => exact ha
  | createFolderAndMove fid n ids s =>
    simp only [hasAllFolder, List.any_append] at ha ⊢
    simp [ha]

/-- C10 (amended): the `"all"` folder is present in every state reachable
through UI-invokable transitions from a state containing it (in particular
from either variant's default state); the raw deletion transition applied
with `"all"` itself would remove it, but the Sidebar guard keeps that call
unreachable. -/
theorem all_folder_reachable_invariant (s0 s : AppState)
    (h0 : hasAllFolder s0 = true) (h : Relation.ReflTransGen Step s0 s) :
    hasAllFolder s = true := by
  induction h with
  | refl => exact h0
  | tail _ hstep ih => exact hasAll_step hstep ih

/-- C10 (witness): the invariant applied to the connected variant's default
state and the empty transition sequence. -/
theorem all_folder_reachable_invariant_witness :
    hasAllFolder defaultStateOnline = true :=
  all_folder_reachable_invariant defaultStateOnline defaultStateOnline
    (by decide) Relation.ReflTransGen.refl

/-- A list none of whose elements satisfies `p` filters to the empty list. -/
theorem filter_nil_of_any_false {α : Type} (p : α → Bool) (l : List α)
    (h : l.any p = false) : l.filter p = [] := by
  induction l with
  | nil => rfl
  | cons a as ih =>
    simp only [List.any_cons, Bool.or_eq_false_iff] at h
    simp [List.filter_cons, h.1, ih h.2]

/-- C8: invalid command arguments are absorbed as no-ops.  (1) A freeform
create-folder utterance whose remaining name is empty after stripping the
command phrases changes nothing.  (2) Starting without a folder of name
`args.name`, issuing the structured `create_folder` twice yields exactly one
folder of that name (the second call collides and is dropped).  (3) A
structured `create_folder` whose name already exists changes nothing.
(4) An unrecognized tool-call name changes nothing. -/
theorem command_noop_spec :
    (∀ (u : OfflineUI) (fid t : String),
      containsStr (trimStr t) "切换视图" = false →
      containsStr (trimStr t) "switch view" = false →
      containsStr (trimStr t) "切换语言" = false →
      containsStr (trimStr t) "switch language" = false →
      (startsStr (trimStr t) "创建文件夹" = true ∨
       startsStr (lowerStr (trimStr t)) "create folder" = true) →
      trimStr (removeAllStrCI (removeAllStr (trimStr t) "创建文件夹") "create folder") = "" →
      onVoiceResult fid t u = u) ∧
    (∀ (fid1 fid2 : String) (a : ToolArgs) (u : OnlineUI),
      u.state.folders.any (fun f => f.name == a.name) = false →
      ((handleVoiceCommand fid2 "create_folder" a
          (handleVoiceCommand fid1 "create_folder" a u)).state.folders.filter
        (fun f => f.name == a.name)).length = 1) ∧
    (∀ (fid : String) (a : ToolArgs) (u : OnlineUI),
      u.state.folders.any (fun f => f.name == a.name) = true →
      handleVoiceCommand fid "create_folder" a u = u) ∧
    (∀ (fid cmd : String) (a : ToolArgs) (u : OnlineUI),
      cmd ≠ "create_folder" → cmd ≠ "search_items" →
      handleVoiceCommand fid cmd a u = u) := by
  refine ⟨?_, ?_, ?_, ?_⟩
  · intro u fid t h1 h2 h3 h4 h5 h6
    rcases h5 with h5 | h5 <;>
      simp [onVoiceResult, h1, h2, h3, h4, h5, h6]
  · intro fid1 fid2 a u hnone
    have hfilter := filter_nil_of_any_false (fun f => f.name == a.name) u.state.folders hnone
    simp [handleVoiceCommand, hnone, List.any_append, List.filter_append, hfilter]
  · intro fid a u hsome
    simp [handleVoiceCommand, hsome]
  · intro fid cmd a u hc1 hc2
    have e1 : (cmd == "create_folder") = false := beq_eq_false_iff_ne.mpr hc1
    have e2 : (cmd == "search_items") = false := beq_eq_false_iff_ne.mpr hc2
    simp [handleVoiceCommand, e1, e2]

/-- Mapping a left inverse over an encoded list decodes to the original. -/
theorem optMapList_map_id {α β : Type} (f : α → β) (g : β → Option α) (l : List α)
    (h : ∀ a : α, g (f a) = some a) : optMapList g (l.map f) = some l := by
  induction l with
  | nil => rfl
  | cons a as ih => simp [optMapList, h, ih]

/-- One OCR text survives the serialize/parse round trip. -/
theorem ocr_roundtrip (t : OCRText) : ocrFromJson (ocrToJson t) = some t := by
  cases t
  rfl

/-- One image item survives the serialize/parse round trip. -/
theorem image_roundtrip (img : ImageItem) : imageFromJson (imageToJson img) = some img := by
  cases img with
  | mk i u b n c d ocr fid =>
    cases fid <;>
      simp [imageToJson, imageFromJson, optMapList_map_id ocrToJson ocrFromJson ocr ocr_roundtrip]

/-- One folder survives the serialize/parse round trip. -/
theorem folder_roundtrip (f : Folder) : folderFromJson (folderToJson f) = some f := by
  cases f
  rfl

/-- A whole state tree survives the serialize/parse round trip. -/
theorem state_roundtrip (s : AppState) : stateFromJson (stateToJson s) = some s := by
  cases s with
  | mk imgs flds cur q =>
    cases cur <;>
      simp [stateToJson, stateFromJson, curFromJson,
        optMapList_map_id imageToJson imageFromJson imgs image_roundtrip,
        optMapList_map_id folderToJson folderFromJson flds folder_roundtrip]

/-- C5 (counterexample): the blob `{}` is corrupted persisted data (it is not
a serialized AppState — the strict parse rejects it), yet the initializer
adopts it verbatim instead of falling back to the default tree. -/
theorem loadState_shape_invalid_not_default :
    loadState (some (some (Json.obj []))) = Json.obj [] ∧
    Json.obj [] ≠ stateToJson defaultStateOnline ∧
    stateFromJson (Json.obj []) = none := by
  refine ⟨rfl, ?_, rfl⟩
  intro h
  simp [stateToJson, defaultStateOnline] at h

/-- C5 (amended): loading reproduces a serialized tree identically (and the
strict parse inverts serialization, so the reproduced tree is the original);
an absent blob or one on which `JSON.parse` throws falls back to the default
tree; but a well-formed-JSON blob of the wrong shape is adopted verbatim,
not defaulted. -/
theorem persistence_roundtrip_spec (s : AppState) :
    loadState none = stateToJson defaultStateOnline ∧
    loadState (some none) = stateToJson defaultStateOnline ∧
    loadState (some (some (stateToJson s))) = stateToJson s ∧
    stateFromJson (stateToJson s) = some s :=
  ⟨rfl, rfl, rfl, state_roundtrip s⟩

/-- Appending the same suffix to different strings keeps them different. -/
theorem str_append_right_cancel (a b x : String) (h : a ++ x = b ++ x) : a = b := by
  apply String.ext
  have hd : a.data ++ x.data = b.data ++ x.data := by
    have h2 := congrArg String.data h
    simpa [String.data_append] using h2
  exact List.append_cancel_right hd

/-- The three stub OCR ids of the local analysis mock differ pairwise
(distinct numeric prefixes ahead of the shared timestamp suffix). -/
theorem mock_ocr_ids_nodup (x : String) :
    ("ocr-1-" ++ x) ≠ ("ocr-2-" ++ x) ∧
    ("ocr-1-" ++ x) ≠ ("ocr-3-" ++ x) ∧
    ("ocr-2-" ++ x) ≠ ("ocr-3-" ++ x) := by
  refine ⟨fun h => ?_, fun h => ?_, fun h => ?_⟩ <;>
    exact absurd (str_append_right_cancel _ _ _ h) (by decide)

/-- Connected UI whose current view is the user folder `"folder-7"`. -/
def exUIC6 : OnlineUI :=
  { state := { images := [],
               folders := [{ id := "all", name := "All Files" },
                           { id := "folder-7", name := "Work" }],
               currentFolderId := some "folder-7", searchQuery := "" },
    selectedImageId := none, isAnalyzing := false }

/-- A successful analysis result for the C6 counterexample. -/
def exAnalysisC6 : Analysis :=
  { category := "Docs", description := "d", texts := [] }

/-- C6 (counterexample): uploading in the connected variant while folder
`"folder-7"` is active files the new item under `"all"`, not under the
active folder, contradicting the claim that `folderId` equals the folder
active at upload time. -/
theorem uploadOnline_folder_not_active :
    exUIC6.state.currentFolderId = some "folder-7" ∧
    (uploadPipelineOnline 5 "obj" "b64" "file.png" (Except.ok exAnalysisC6)
        exUIC6).state.images.map (fun img => img.folderId) = [some "all"] ∧
    (some "all" : Option String) ≠ some "folder-7" := by
  decide

/-- C6 (amended): on success both pipelines prepend a single synthesized
item carrying the timestamp-derived id, the encoded payload, and the
analysis result's category, description and text blocks verbatim; the
offline variant files it under the folder active at upload time (`"all"`
mapping to `"all"`), while the connected variant always files it under
`"all"`; and the local analysis collaborator's stub text blocks carry
pairwise-distinct timestamp-derived ids. -/
theorem upload_spec (ts : Nat) (objectUrl b64 fileName : String) (a : Analysis)
    (uo : OnlineUI) (uf : OfflineUI) :
    (uploadPipelineOnline ts objectUrl b64 fileName (Except.ok a) uo).state.images =
      { id := "img-" ++ toString ts, url := objectUrl, base64 := b64, name := fileName,
        category := a.category, description := a.description, ocrTexts := a.texts,
        folderId := some "all" } :: uo.state.images ∧
    (uploadPipelineOffline ts b64 fileName (Except.ok a) uf).state.images =
      { id := "img-" ++ toString ts, url := b64, base64 := b64, name := fileName,
        category := a.category, description := a.description, ocrTexts := a.texts,
        folderId := if uf.state.currentFolderId == some "all" then some "all"
                    else uf.state.currentFolderId } :: uf.state.images ∧
    ((analyzeImageMock ts fileName).texts.map (fun t2 => t2.id)).Nodup := by
  refine ⟨rfl, rfl, ?_⟩
  obtain ⟨h12, h13, h23⟩ := mock_ocr_ids_nodup (toString ts)
  simp [analyzeImageMock, List.nodup_cons, h12, h13, h23]

/-- Offline UI for the C7 counterexample (flag initially down). -/
def exUIC7 : OfflineUI :=
  { language := Lang.en, viewMode := ViewMode.desktop,
    state := defaultStateOffline,
    selectedImageId := none, isAnalyzing := false, multiSelectMode := false,
    batchSelectedIds := [] }

/-- C7 (counterexample): a failing analysis call in the offline variant
leaves the in-progress flag raised — the pipeline has no catch/finally, so
on this exit path the flag is not cleared, contradicting the claim that it
is cleared on every exit path. -/
theorem uploadOffline_error_flag_stuck :
    (uploadPipelineOffline 1 "b64" "file.png" (Except.error ()) exUIC7).isAnalyzing = true ∧
    (uploadPipelineOffline 1 "b64" "file.png" (Except.error ()) exUIC7).state = exUIC7.state := by
  decide

/-- C7 (amended): on failure no image record is created in either variant;
the connected variant clears the in-progress flag on both exit paths
(try/catch/finally), while the offline variant clears it only on the success
path — its failure path keeps the flag raised, though its local analysis
collaborator is total and never takes that path. -/
theorem upload_cleanup_spec (ts : Nat) (objectUrl b64 fileName : String) (a : Analysis)
    (e : Unit) (uo : OnlineUI) (uf : OfflineUI) :
    (uploadPipelineOnline ts objectUrl b64 fileName (Except.error e) uo).isAnalyzing = false ∧
    (uploadPipelineOnline ts objectUrl b64 fileName (Except.error e) uo).state = uo.state ∧
    (uploadPipelineOnline ts objectUrl b64 fileName (Except.ok a) uo).isAnalyzing = false ∧
    (uploadPipelineOffline ts b64 fileName (Except.ok a) uf).isAnalyzing = false ∧
    (uploadPipelineOffline ts b64 fileName (Except.error e) uf).isAnalyzing = true ∧
    (uploadPipelineOffline ts b64 fileName (Except.error e) uf).state = uf.state :=
  ⟨rfl, rfl, rfl, rfl, rfl, rfl⟩
